import Mathlib

/-!
Verification of the Signal Detection & Gating Engine of the trading bot
(`agent_discord.py`, `dl.py`): the indicator pipeline, the breakout/retest
pattern matcher, the on-chain confirmation scorer and the rate-limited
alert gate.

Modelling conventions:
* Prices and volumes are modelled as rationals (`ℚ`).  A pandas `NaN`
  ("undefined" in the spec) is modelled as `none : Option ℚ`; every Python
  comparison against `NaN` is `False`, which the model renders as a `match`
  falling through to `false`.
* Timestamps of the alert gate are modelled as whole seconds (`ℤ`) since the
  Unix epoch, so `datetime(1970, 1, 1)` is `0`.  For a Python `timedelta`
  `d = a - b`, `d.seconds` is the normalised within-day component
  `(a - b).emod 86400` and `d.days` is the floor quotient
  `(a - b).fdiv 86400` (Python normalises `timedelta` with floor division).
* An OHLCV frame is a list of bars ordered by time; row `t` of a pandas
  column becomes index `t`.
-/

attribute [local semireducible] Rat.add Rat.mul Rat.sub Rat.inv

set_option maxRecDepth 4000
set_option maxHeartbeats 2000000

namespace TradingBot

/-- Strict sequencing on `ℚ`: force `q` to an evaluated rational, then
return `k`.  Semantically the identity on `k` (`seqQ_eq`); it only guides
kernel evaluation of the rolling computations below, mirroring the eager
columnar evaluation pandas performs. -/
def seqQ (q k : ℚ) : ℚ :=
  match q.num == 0, q.den == 0 with
  | true, true => k
  | true, false => k
  | false, true => k
  | false, false => k

/-- `seqQ q k` is `k`. -/
theorem seqQ_eq (q k : ℚ) : seqQ q k = k := by
  unfold seqQ
  rcases q.num == 0 <;> rcases q.den == 0 <;> rfl

/-- Left fold with a strictly evaluated rational accumulator: the model of
one pass over a pandas column. -/
def foldQ {α : Type} (g : ℚ → α → ℚ) : ℚ → List α → ℚ
  | s, [] => s
  | s, x :: rest => seqQ (g s x) (foldQ g (g s x) rest)

/-- `foldQ` is `List.foldl`. -/
theorem foldQ_eq_foldl {α : Type} (g : ℚ → α → ℚ) (s : ℚ) (xs : List α) :
    foldQ g s xs = xs.foldl g s := by
  induction xs generalizing s with
  | nil => rfl
  | cons x rest ih => simp [foldQ, seqQ_eq, List.foldl, ih]

/-- One OHLCV bar: open, high, low, close, volume (columns of the frames
built by `cmc_ohlcv_daily`). -/
structure Bar where
  o : ℚ
  h : ℚ
  l : ℚ
  c : ℚ
  v : ℚ
deriving DecidableEq

/-- An OHLCV series: bars ordered by time. -/
abbrev Frame := List Bar

/-- Column access: `df["close"].iloc[t]`, `none` when the row does not exist. -/
def closeAt? (df : Frame) (t : ℕ) : Option ℚ := (df.get? t).map Bar.c

/-- Column access: `df["high"].iloc[t]`. -/
def highAt? (df : Frame) (t : ℕ) : Option ℚ := (df.get? t).map Bar.h

/-- Column access: `df["low"].iloc[t]`. -/
def lowAt? (df : Frame) (t : ℕ) : Option ℚ := (df.get? t).map Bar.l

/-- Column access: `df["volume"].iloc[t]`. -/
def volAt? (df : Frame) (t : ℕ) : Option ℚ := (df.get? t).map Bar.v

/-- Total close accessor (defaults to `0` out of range; only used at indices
that are in range). -/
def cAt (df : Frame) (t : ℕ) : ℚ := (closeAt? df t).getD 0

/-- Total high accessor. -/
def hAt (df : Frame) (t : ℕ) : ℚ := (highAt? df t).getD 0

/-- Total low accessor. -/
def lAt (df : Frame) (t : ℕ) : ℚ := (lowAt? df t).getD 0

/-- Total volume accessor. -/
def vAt (df : Frame) (t : ℕ) : ℚ := (volAt? df t).getD 0

/-! ## The alert gate (`can_send` / `mark`, `agent_discord.py` lines 68-334)

`MAX_PER_HOUR = 3`, `MAX_PER_DAY = 10`, `PER_COIN_COOLDOWN_MIN = 90`.
The module-level `STATE` dict becomes an explicit `GateState` value, and the
mutating `can_send` becomes a function returning the decision together with
the updated state. -/

/-- The rate-limit state `STATE`: alerts this hour `h`, alerts today `d`,
window-start stamps `last_h` / `last_d` (`none` models Python `None`),
and the per-coin last-alert map. -/
structure GateState where
  h : ℕ
  d : ℕ
  last_h : Option ℤ
  last_d : Option ℤ
  per_coin : List (String × ℤ)
deriving DecidableEq

/-- `not STATE["last_h"] or (n - STATE["last_h"]).seconds >= 3600`:
a `datetime` is always truthy, `None` is falsy, and `.seconds` is the
within-day component of the timedelta. -/
def hourReset (s : GateState) (n : ℤ) : Bool :=
  match s.last_h with
  | none => true
  | some t => decide (3600 ≤ (n - t) % 86400)

/-- `not STATE["last_d"] or (n - STATE["last_d"]).days >= 1`:
`.days` is the floor quotient of the timedelta by one day. -/
def dayReset (s : GateState) (n : ℤ) : Bool :=
  match s.last_d with
  | none => true
  | some t => decide (1 ≤ Int.fdiv (n - t) 86400)

/-- The two reset blocks at the top of `can_send`: the hourly one zeroes `h`
and stamps `last_h`; the daily one zeroes `d`, stamps `last_d` and wipes the
per-coin map. -/
def afterResets (s : GateState) (n : ℤ) : GateState :=
  let s1 := if hourReset s n then { s with h := 0, last_h := some n } else s
  if dayReset s1 n then { s1 with d := 0, last_d := some n, per_coin := [] } else s1

/-- `can_send(sym)` at current time `n`: apply the window resets, deny when
`h >= MAX_PER_HOUR or d >= MAX_PER_DAY`, otherwise allow iff the per-coin
cool-down of `90 * 60` seconds has elapsed, where a missing per-coin entry
defaults to `datetime(1970, 1, 1)`, i.e. second `0`.  Returns the decision
together with the updated state. -/
def can_send (s : GateState) (n : ℤ) (sym : String) : Bool × GateState :=
  let s2 := afterResets s n
  if 3 ≤ s2.h ∨ 10 ≤ s2.d then (false, s2)
  else (decide (5400 ≤ (n - ((s2.per_coin.lookup sym).getD 0)) % 86400), s2)

/-- `mark(sym)`: record an alert now (the Python dict update is modelled by
prepending, which is what `List.lookup` observes). -/
def mark (s : GateState) (n : ℤ) (sym : String) : GateState :=
  { s with h := s.h + 1, d := s.d + 1, per_coin := (sym, n) :: s.per_coin }

/-! ## On-chain confirmation (`dl.onchain_snapshot` consumers,
`agent_discord.py` lines 233-256) -/

/-- A `ConfirmationSnapshot` as returned by `onchain_snapshot`: every metric
optional (`None` when an API call failed or data was missing). -/
structure Snapshot where
  tvl : Option ℚ
  dex_vol : Option ℚ
  perps_vol : Option ℚ
  fees : Option ℚ
  revenue : Option ℚ
  stable_mcap : Option ℚ
deriving DecidableEq

/-- The entirely empty snapshot: every metric `None`. -/
def emptySnap : Snapshot := ⟨none, none, none, none, none, none⟩

/-- The `CHAIN` mapping from symbol to DefiLlama chain name. -/
def CHAIN : List (String × String) :=
  [("ARB", "arbitrum"), ("ONDO", "ethereum"), ("SEI", "sei"), ("SUI", "sui"),
   ("BTC", "bitcoin"), ("ETH", "ethereum"), ("SOL", "solana"), ("TON", "ton"),
   ("DOGE", "dogecoin"), ("AVAX", "avalanche"), ("LINK", "ethereum"),
   ("OP", "optimism")]

/-- `CHAIN.get(sym)`. -/
def chainFor (sym : String) : Option String := CHAIN.lookup sym

/-- The on-chain score computed in `breakout_retest_signal`: `+1` when the
TVL 24h percent change is `>= 5`, and `+1` for each of DEX volume, perps
volume, fees and stablecoin market cap strictly above its fixed threshold
(`5_000_000`, `5_000_000`, `200_000`, `100_000_000`); a `None` metric (which
fails Python's `isinstance((int, float))` test) contributes nothing.
`revenue` is never scored. -/
def onchainScore (snap : Snapshot) : ℕ :=
  (match snap.tvl with | some t => if 5 ≤ t then 1 else 0 | none => 0) +
  (match snap.dex_vol with | some x => if 5000000 < x then 1 else 0 | none => 0) +
  (match snap.perps_vol with | some x => if 5000000 < x then 1 else 0 | none => 0) +
  (match snap.fees with | some x => if 200000 < x then 1 else 0 | none => 0) +
  (match snap.stable_mcap with | some x => if 100000000 < x then 1 else 0 | none => 0)

/-- The soft on-chain gate `ok_on`: `True` when no chain is configured for
the symbol, otherwise `score >= 1` on the snapshot fetched for that chain. -/
def okOn (sym : String) (snap : Snapshot) : Bool :=
  match chainFor sym with
  | none => true
  | some _ => decide (1 ≤ onchainScore snap)

/-! ## Fibonacci retracement levels (`fib_levels`, lines 194-204) -/

/-- The three retracement levels returned by `fib_levels`
(keys `"0.618"`, `"0.5"`, `"0.382"`). -/
structure FibLevels where
  f618 : ℚ
  f5 : ℚ
  f382 : ℚ
deriving DecidableEq

/-- Maximum of a list of rationals (`Series.max()`), `none` on the empty
series (pandas `NaN`). -/
def maxList : List ℚ → Option ℚ
  | [] => none
  | x :: xs => some (foldQ max x xs)

/-- Minimum of a list of rationals (`Series.min()`). -/
def minList : List ℚ → Option ℚ
  | [] => none
  | x :: xs => some (foldQ min x xs)

/-- `fib_levels(df, lookback=120)`: over the trailing 120 bars, with
`rng = max(hi - lo, 1e-9)`, return `{"0.618": hi - 0.618*rng,
"0.5": lo + 0.5*rng, "0.382": hi - 0.382*rng}`.  On an empty frame the
pandas max/min are `NaN`, modelled as `none`. -/
def fib_levels (df : Frame) : Option FibLevels :=
  let recent := df.drop (df.length - 120)
  match maxList (recent.map Bar.h), minList (recent.map Bar.l) with
  | some hi, some lo =>
    let rng := max (hi - lo) (1 / 1000000000)
    some ⟨hi - (309 / 500) * rng, lo + (1 / 2) * rng, hi - (191 / 500) * rng⟩
  | _, _ => none

/-! ## The indicator pipeline (`add_indicators`, lines 165-191)

Everything below `add_indicators` in the source is a call into pandas or the
`ta` library, whose code is not part of this repository; those derivations
are modelled from the spec (section 4.1) together with the unambiguous
semantics of the invoked library functions, as documented on each
definition.  All columns keep the length of the frame; a row where the
library would produce `NaN` ("insufficient history") is `none`. -/

/-- Numerator of `Series.ewm(span).mean()` with the pandas default
`adjust=True` at row `t`: the `(1-α)`-geometrically weighted sum of the
closes of rows `0..t`, computed by the recursion
`s_0 = x_0`, `s_{t+1} = x_{t+1} + (1-α) s_t`. -/
def emaNum (df : Frame) (a : ℚ) (t : ℕ) : ℚ :=
  match (df.take (t + 1)).map Bar.c with
  | [] => 0
  | x :: xs => foldQ (fun s y => y + (1 - a) * s) x xs

/-- Weight sum of `Series.ewm(span).mean()` with `adjust=True` at row `t`:
`w_0 = 1`, `w_{t+1} = 1 + (1-α) w_t`. -/
def emaDen (a : ℚ) (t : ℕ) : ℚ :=
  foldQ (fun s _ => 1 + (1 - a) * s) 1 (List.range t)

/-- `df["close"].ewm(span).mean()` at row `t`, with `α = 2 / (span + 1)`
passed as `a`.  Defined from row 0 on (pandas uses `min_periods=0` here). -/
def emaAdj (df : Frame) (a : ℚ) (t : ℕ) : ℚ := emaNum df a t / emaDen a t

/-- The `ema20` column: `df["close"].ewm(span=20).mean()`, `α = 2/21`. -/
def ema20? (df : Frame) (t : ℕ) : Option ℚ :=
  if t < df.length then some (emaAdj df (2 / 21) t) else none

/-- The `ema50` column: `α = 2/51`. -/
def ema50? (df : Frame) (t : ℕ) : Option ℚ :=
  if t < df.length then some (emaAdj df (2 / 51) t) else none

/-- The `ema200` column: `α = 2/201`. -/
def ema200? (df : Frame) (t : ℕ) : Option ℚ :=
  if t < df.length then some (emaAdj df (2 / 201) t) else none

/-- Positive part of the close-to-close difference at row `t ≥ 1`
(the `up_direction` series of the RSI). -/
def upAt (df : Frame) (t : ℕ) : ℚ := max (cAt df t - cAt df (t - 1)) 0

/-- Negative part of the close-to-close difference at row `t ≥ 1`
(the `down_direction` series of the RSI). -/
def dnAt (df : Frame) (t : ℕ) : ℚ := max (cAt df (t - 1) - cAt df t) 0

/-- Modelled from the spec (14-bar momentum oscillator scaled 0-100; the
`ta.momentum.RSIIndicator` code is not in `src/`): Wilder smoothing
`ewm(alpha=1/14, adjust=False)` of the gains at row `t ≥ 1`, seeded at the
first difference (row 1): `y_1 = u_1`, `y_t = (13/14) y_{t-1} + (1/14) u_t`. -/
def auR (df : Frame) (t : ℕ) : ℚ :=
  match (List.range' 1 t).map (upAt df) with
  | [] => 0
  | x :: xs => foldQ (fun s y => (13 / 14) * s + (1 / 14) * y) x xs

/-- Wilder smoothing of the losses, seeded at row 1. -/
def adR (df : Frame) (t : ℕ) : ℚ :=
  match (List.range' 1 t).map (dnAt df) with
  | [] => 0
  | x :: xs => foldQ (fun s y => (13 / 14) * s + (1 / 14) * y) x xs

/-- The `rsi` column: `100 - 100 / (1 + emaup/emadn)`, i.e.
`100 * emaup / (emaup + emadn)`, and `100` outright when `emadn = 0`;
undefined until 14 differences have been observed (`min_periods=14`,
differences start at row 1, so rows `0..13` are `NaN`). -/
def rsi? (df : Frame) (t : ℕ) : Option ℚ :=
  if 14 ≤ t ∧ t < df.length then
    some (if adR df t = 0 then 100 else 100 * auR df t / (auR df t + adR df t))
  else none

/-- `Series.ewm(span, adjust=False).mean()` over the closes at row `t`
(used by the `ta` MACD with spans 12 and 26): `y_0 = x_0`,
`y_{t+1} = (1-α) y_t + α x_{t+1}`. -/
def ewmF (df : Frame) (a : ℚ) (t : ℕ) : ℚ :=
  match (df.take (t + 1)).map Bar.c with
  | [] => 0
  | x :: xs => foldQ (fun s y => (1 - a) * s + a * y) x xs

/-- Modelled from the spec (12/26-bar fast/slow EMAs of price, the
`ta.trend.MACD` code is not in `src/`): the raw MACD line
`ema12 - ema26` before the `min_periods` masking. -/
def macdRaw (df : Frame) (t : ℕ) : ℚ := ewmF df (2 / 13) t - ewmF df (2 / 27) t

/-- The `macd` column: `NaN` before row 25 (`min_periods=26` on the slow
EMA). -/
def macd? (df : Frame) (t : ℕ) : Option ℚ :=
  if 25 ≤ t ∧ t < df.length then some (macdRaw df t) else none

/-- The 9-span signal EMA over the MACD line at row `t ≥ 25`.  The first
valid MACD observation is row 25, and `ewm(span=9, adjust=False)` restarts
at the first non-`NaN` input (how pandas treats the leading `NaN` block):
`sg_25 = macd_25`, `sg_t = (4/5) sg_{t-1} + (1/5) macd_t`. -/
def sgR (df : Frame) (t : ℕ) : ℚ :=
  match (List.range' 25 (t - 24)).map (macdRaw df) with
  | [] => 0
  | x :: xs => foldQ (fun s y => (4 / 5) * s + (1 / 5) * y) x xs

/-- The `macd_signal` column: `NaN` until 9 valid MACD observations exist,
i.e. before row 33. -/
def macd_signal? (df : Frame) (t : ℕ) : Option ℚ :=
  if 33 ≤ t ∧ t < df.length then some (sgR df t) else none

/-- The `macd_hist` column: `macd - macd_signal`. -/
def macd_hist? (df : Frame) (t : ℕ) : Option ℚ :=
  if 33 ≤ t ∧ t < df.length then some (macdRaw df t - sgR df t) else none

/-- True Range at row `t`: `max(high-low, |high-prevClose|, |low-prevClose|)`;
at row 0 there is no previous close and the pandas row-max skips the `NaN`
terms, leaving `high - low`. -/
def trZ (df : Frame) : ℕ → ℚ
  | 0 => hAt df 0 - lAt df 0
  | t + 1 =>
    max (hAt df (t + 1) - lAt df (t + 1))
      (max |hAt df (t + 1) - cAt df t| |lAt df (t + 1) - cAt df t|)

/-- Modelled from the spec (ATR over 14 bars "averaged via exponential
smoothing"; the `ta.volatility.AverageTrueRange` code is not in `src/`):
Wilder's recursion `atr_t = (13 * atr_{t-1} + tr_t) / 14` over rows
`14..t`, seeded at row 13 with the mean of the first 14 True Ranges. -/
def atrR (df : Frame) (t : ℕ) : ℚ :=
  foldQ (fun s y => (13 * s + y) / 14)
    (foldQ (fun s y => s + y) 0 ((List.range 14).map (trZ df)) / 14)
    ((List.range' 14 (t - 13)).map (trZ df))

/-- The `atr` column: undefined while fewer than 14 bars of history exist
(rows `0..12`; the spec mandates "insufficient history" be undefined,
never zero). -/
def atr? (df : Frame) (t : ℕ) : Option ℚ :=
  if 13 ≤ t ∧ t < df.length then some (atrR df t) else none

/-- Rolling 20-bar maximum of the highs ending at row `t` (only used at
rows `t ≥ 19`, where the window `t-19..t` is full). -/
def hmax (df : Frame) (t : ℕ) : ℚ :=
  (List.range 20).foldl (fun acc k => max acc (hAt df (t - k))) (hAt df t)

/-- Rolling 20-bar minimum of the lows ending at row `t`. -/
def lmin (df : Frame) (t : ℕ) : ℚ :=
  (List.range 20).foldl (fun acc k => min acc (lAt df (t - k))) (lAt df t)

/-- The `swing_high` column: `df["high"].rolling(20).max()` — `NaN` for the
first 19 rows (`min_periods` defaults to the window size). -/
def swing_high? (df : Frame) (t : ℕ) : Option ℚ :=
  if 19 ≤ t ∧ t < df.length then some (hmax df t) else none

/-- The `swing_low` column: `df["low"].rolling(20).min()`. -/
def swing_low? (df : Frame) (t : ℕ) : Option ℚ :=
  if 19 ≤ t ∧ t < df.length then some (lmin df t) else none

/-- Sum of `k` volumes starting at row `start`. -/
def vSum (df : Frame) (start : ℕ) : ℕ → ℚ
  | 0 => 0
  | k + 1 => vSum df start k + vAt df (start + k)

/-- The `vol_ma` column: `df["volume"].rolling(20).mean()` — `NaN` for the
first 19 rows. -/
def vol_ma? (df : Frame) (t : ℕ) : Option ℚ :=
  if 19 ≤ t ∧ t < df.length then some (vSum df (t - 19) 20 / 20) else none

/-- The IndicatorFrame: the frame together with its derived columns,
each a row-indexed optional value. -/
structure IndicatorFrame where
  bars : Frame
  ema20 : ℕ → Option ℚ
  ema50 : ℕ → Option ℚ
  ema200 : ℕ → Option ℚ
  rsi : ℕ → Option ℚ
  macd : ℕ → Option ℚ
  macd_signal : ℕ → Option ℚ
  macd_hist : ℕ → Option ℚ
  atr : ℕ → Option ℚ
  swing_high : ℕ → Option ℚ
  swing_low : ℕ → Option ℚ
  vol_ma : ℕ → Option ℚ

/-- `add_indicators(df)`: append every derived column to the frame. -/
def add_indicators (df : Frame) : IndicatorFrame :=
  ⟨df, ema20? df, ema50? df, ema200? df, rsi? df, macd? df, macd_signal? df,
   macd_hist? df, atr? df, swing_high? df, swing_low? df, vol_ma? df⟩

/-! ## The pattern matcher (`breakout_retest_signal` lines 207-268,
`exit_signal` lines 271-307)

Each technical check of the source is one Boolean definition; a pandas
comparison involving `NaN` is `False`, so a `match` arm with a missing
value yields `false`.  The row indices mirror `iloc[-1]`, `iloc[-2]`,
`iloc[-3]` on a frame of length `n`. -/

/-- `volume_ok = last["volume"] > 1.2 * (df["vol_ma"].iloc[-2] or 1)`:
Python's `or` replaces a *zero* average by `1` (`0.0` is falsy; a `NaN`
is truthy and keeps the comparison `False`, modelled by the `none` arm). -/
def volumeOkB (df : Frame) : Bool :=
  match volAt? df (df.length - 1), vol_ma? df (df.length - 2) with
  | some v, some m => decide ((6 / 5) * (if m = 0 then 1 else m) < v)
  | _, _ => false

/-- `ema_trend = last["close"] > last["ema50"] > last["ema200"]`. -/
def emaTrendBullB (df : Frame) : Bool :=
  match closeAt? df (df.length - 1) with
  | some c =>
    decide (emaAdj df (2 / 51) (df.length - 1) < c ∧
      emaAdj df (2 / 201) (df.length - 1) < emaAdj df (2 / 51) (df.length - 1))
  | none => false

/-- `momentum = last["macd_hist"] > 0 and last["rsi"] > 50`. -/
def momentumBullB (df : Frame) : Bool :=
  match macd_hist? df (df.length - 1), rsi? df (df.length - 1) with
  | some hv, some r => decide (0 < hv ∧ 50 < r)
  | _, _ => false

/-- `above_fib = last["close"] > fib["0.618"]`. -/
def aboveFibB (df : Frame) : Bool :=
  match closeAt? df (df.length - 1), fib_levels df with
  | some c, some fb => decide (fb.f618 < c)
  | _, _ => false

/-- `broke_high = last["close"] > df["swing_high"].iloc[-2] and
prev["close"] <= df["swing_high"].iloc[-3]`. -/
def brokeHighB (df : Frame) : Bool :=
  match closeAt? df (df.length - 1), closeAt? df (df.length - 2),
      swing_high? df (df.length - 2), swing_high? df (df.length - 3) with
  | some c1, some c2, some s2, some s3 => decide (s2 < c1 ∧ c2 ≤ s3)
  | _, _, _, _ => false

/-- `retest_ok = last["low"] <= df["swing_high"].iloc[-2] * 1.005 and
last["close"] >= df["swing_high"].iloc[-2]`. -/
def retestHighB (df : Frame) : Bool :=
  match lowAt? df (df.length - 1), closeAt? df (df.length - 1),
      swing_high? df (df.length - 2) with
  | some l1, some c1, some s2 => decide (l1 ≤ s2 * (201 / 200) ∧ s2 ≤ c1)
  | _, _, _ => false

/-- The six bullish technical filters of `breakout_retest_signal`, in
source order (the soft on-chain gate `ok_on` is separate). -/
def bullB (df : Frame) : Bool :=
  volumeOkB df && emaTrendBullB df && momentumBullB df && aboveFibB df &&
    brokeHighB df && retestHighB df

/-- `ema_trend = last["close"] < last["ema50"] < last["ema200"]`
(bearish mirror). -/
def emaTrendBearB (df : Frame) : Bool :=
  match closeAt? df (df.length - 1) with
  | some c =>
    decide (c < emaAdj df (2 / 51) (df.length - 1) ∧
      emaAdj df (2 / 51) (df.length - 1) < emaAdj df (2 / 201) (df.length - 1))
  | none => false

/-- `momentum = last["macd_hist"] < 0 and last["rsi"] < 50`. -/
def momentumBearB (df : Frame) : Bool :=
  match macd_hist? df (df.length - 1), rsi? df (df.length - 1) with
  | some hv, some r => decide (hv < 0 ∧ r < 50)
  | _, _ => false

/-- `below_fib = last["close"] < fib["0.382"]`. -/
def belowFibB (df : Frame) : Bool :=
  match closeAt? df (df.length - 1), fib_levels df with
  | some c, some fb => decide (c < fb.f382)
  | _, _ => false

/-- `broke_low = last["close"] < df["swing_low"].iloc[-2] and
prev["close"] >= df["swing_low"].iloc[-3]`. -/
def brokeLowB (df : Frame) : Bool :=
  match closeAt? df (df.length - 1), closeAt? df (df.length - 2),
      swing_low? df (df.length - 2), swing_low? df (df.length - 3) with
  | some c1, some c2, some s2, some s3 => decide (c1 < s2 ∧ s3 ≤ c2)
  | _, _, _, _ => false

/-- `retest_ok = last["high"] >= df["swing_low"].iloc[-2] * 0.995 and
last["close"] <= df["swing_low"].iloc[-2]`. -/
def retestLowB (df : Frame) : Bool :=
  match highAt? df (df.length - 1), closeAt? df (df.length - 1),
      swing_low? df (df.length - 2) with
  | some h1, some c1, some s2 => decide (s2 * (199 / 200) ≤ h1 ∧ c1 ≤ s2)
  | _, _, _ => false

/-- The six bearish technical filters of `exit_signal`, in source order. -/
def bearB (df : Frame) : Bool :=
  volumeOkB df && emaTrendBearB df && momentumBearB df && belowFibB df &&
    brokeLowB df && retestLowB df

/-- The numeric content of an alert: entry price, stop, and the two take
profits (the source formats these into the alert string). -/
structure TradeSignal where
  entry : ℚ
  stop : ℚ
  tp1 : ℚ
  tp2 : ℚ
deriving DecidableEq

/-- The long descriptor: `stop = close - 1.5*atr`,
`rr = max(close - stop, 1e-6)`, `tp1 = close + 2*rr`, `tp2 = close + 3*rr`. -/
def mkLong (c a : ℚ) : TradeSignal :=
  let stop := c - (3 / 2) * a
  let rr := max (c - stop) (1 / 1000000)
  ⟨c, stop, c + 2 * rr, c + 3 * rr⟩

/-- The short descriptor: `stop = close + 1.5*atr`,
`rr = max(stop - close, 1e-6)`, `tp1 = close - 2*rr`, `tp2 = close - 3*rr`. -/
def mkShort (c a : ℚ) : TradeSignal :=
  let stop := c + (3 / 2) * a
  let rr := max (stop - c) (1 / 1000000)
  ⟨c, stop, c - 2 * rr, c - 3 * rr⟩

/-- `breakout_retest_signal(sym, df)`: `None` for an absent frame or fewer
than 200 bars; otherwise the long descriptor when all six technical filters
and the soft on-chain gate pass.  The snapshot the source would fetch for
the configured chain is passed in as `snap`. -/
def breakout_retest_signal (sym : String) (odf : Option Frame) (snap : Snapshot) :
    Option TradeSignal :=
  match odf with
  | none => none
  | some df =>
    if df.length < 200 then none
    else if bullB df && okOn sym snap then
      match closeAt? df (df.length - 1), atr? df (df.length - 1) with
      | some c, some a => some (mkLong c a)
      | _, _ => none
    else none

/-- `exit_signal(sym, df)`: `None` for an absent frame or fewer than 200
bars; otherwise the short descriptor when all six bearish filters pass (no
on-chain gate on exits). -/
def exit_signal (_sym : String) (odf : Option Frame) : Option TradeSignal :=
  match odf with
  | none => none
  | some df =>
    if df.length < 200 then none
    else if bearB df then
      match closeAt? df (df.length - 1), atr? df (df.length - 1) with
      | some c, some a => some (mkShort c a)
      | _, _ => none
    else none

/-- Well-formed OHLCV data: every bar has `low ≤ close ≤ high`. -/
def WFb (df : Frame) : Bool :=
  df.all fun b => decide (b.l ≤ b.c ∧ b.c ≤ b.h)

/-! ## Claim C1: short or absent frames give no signal -/

/-- C1: for every IndicatorFrame with fewer than 200 bars, and also for an
absent frame, both the bullish matcher (`breakout_retest_signal`) and the
bearish matcher (`exit_signal`) return no signal (`None`). -/
theorem C1_short_or_absent_frame_no_signal (sym : String) (snap : Snapshot)
    (odf : Option Frame)
    (hsmall : odf = none ∨ ∃ df : Frame, odf = some df ∧ df.length < 200) :
    breakout_retest_signal sym odf snap = none ∧ exit_signal sym odf = none := by
  rcases hsmall with rfl | ⟨df, rfl, hlen⟩
  · exact ⟨rfl, rfl⟩
  · constructor <;> simp [breakout_retest_signal, exit_signal, hlen]

/-- C1 witness: the empty frame and the absent frame at a concrete symbol. -/
theorem C1_witness :
    breakout_retest_signal "ARB" (some []) emptySnap = none ∧
      exit_signal "ARB" (some []) = none ∧
      breakout_retest_signal "ARB" none emptySnap = none ∧
      exit_signal "ARB" none = none := by
  have h1 := C1_short_or_absent_frame_no_signal "ARB" emptySnap (some [])
    (Or.inr ⟨[], rfl, by decide⟩)
  have h2 := C1_short_or_absent_frame_no_signal "ARB" emptySnap none (Or.inl rfl)
  exact ⟨h1.1, h1.2, h2.1, h2.2⟩

/-! ## Claim C7: the empty snapshot scores 0 and confirms only chainless
assets -/

/-- C7: scoring an entirely empty `ConfirmationSnapshot` yields on-chain
score 0 and never raises (the scorer is a total function); the asset is
treated as on-chain confirmed iff no chain is configured for it: a
configured chain with the empty snapshot gives `ok_on = false` since
`0 < 1`. -/
theorem C7_empty_snapshot_scores_zero :
    onchainScore emptySnap = 0 ∧
      ∀ sym : String, (okOn sym emptySnap = true ↔ chainFor sym = none) := by
  refine ⟨rfl, fun sym => ?_⟩
  unfold okOn
  cases hc : chainFor sym with
  | none => simp
  | some c => simp [show onchainScore emptySnap = 0 from rfl]

/-! ## Claim C4: `can_send` denies at the exact caps -/

/-- The returned state of `can_send` is the post-reset state. -/
theorem can_send_snd (s : GateState) (n : ℤ) (sym : String) :
    (can_send s n sym).2 = afterResets s n := by
  simp only [can_send]
  split <;> rfl

/-- C4: whenever, after the window resets are applied, the hourly count
equals 3 (`MAX_PER_HOUR`) or the daily count equals 10 (`MAX_PER_DAY`),
`can_send` returns `false`: denial triggers at the exact cap values.  The
hypothesis quantifies over every state, hence over every state reachable by
any sequence of `can_send` and `mark` steps. -/
theorem C4_denies_at_exact_caps (s : GateState) (n : ℤ) (sym : String)
    (hcap : (can_send s n sym).2.h = 3 ∨ (can_send s n sym).2.d = 10) :
    (can_send s n sym).1 = false := by
  rw [can_send_snd] at hcap
  have hcond : 3 ≤ (afterResets s n).h ∨ 10 ≤ (afterResets s n).d := by
    rcases hcap with h | h
    · exact Or.inl (by omega)
    · exact Or.inr (by omega)
  simp only [can_send]
  rw [if_pos hcond]

/-- State for the C4 witness: three alerts already sent this hour, window
fresh. -/
def gateC4 : GateState := ⟨3, 3, some 0, some 0, []⟩

/-- C4 witness: at 100 seconds into the hour the post-reset hourly count is
still 3 and the gate denies. -/
theorem C4_witness :
    ((can_send gateC4 100 "ARB").2.h = 3 ∨ (can_send gateC4 100 "ARB").2.d = 10) ∧
      (can_send gateC4 100 "ARB").1 = false := by
  refine ⟨Or.inl (by decide), C4_denies_at_exact_caps gateC4 100 "ARB" (Or.inl (by decide))⟩

/-! ## Claim C2: the hourly reset fires on the within-day component, not on
total elapsed time -/

/-- State for the C2 counterexample: one alert counted in the hourly
window that started at second 0. -/
def gateC2 : GateState := ⟨1, 1, some 0, some 0, []⟩

/-- C2 counterexample: at `n = 88200` (1 day plus 30 minutes after the
hourly window start, so 3600 seconds or more have elapsed), `can_send`
does *not* reset the hourly counter to 0 and does not stamp a new hourly
window start: Python's `timedelta.seconds` is the within-day component
`88200 % 86400 = 1800 < 3600`. -/
theorem C2_counterexample :
    (3600 : ℤ) ≤ 88200 - 0 ∧
      (can_send gateC2 88200 "ARB").2.h = 1 ∧
      (can_send gateC2 88200 "ARB").2.last_h = some 0 := by
  exact ⟨by decide, by decide, by decide⟩

/-- C2 amended: a call to `can_send` resets the hourly counter to 0 and
stamps a new hourly window start *exactly when* the within-day component
`(n - last_h) % 86400` of the elapsed time is at least 3600 seconds,
whatever the number of whole days elapsed.  Both directions are proved for
every state and every time: when the component reaches 3600 the counter is
zeroed and the window restamped (for elapsed times under one day this is
the claim as stated, since the component then equals the elapsed time, by
`Int.emod_eq_of_lt`; it also covers multi-day elapsed times such as
90000 s); when it does not, the counter and the window start are left
untouched — so elapsed times over a day with a small within-day remainder,
such as the counterexample's 88200 s, do not reset. -/
theorem C2_hour_reset_iff_within_day (s : GateState) (t n : ℤ) (sym : String)
    (hlh : s.last_h = some t) :
    (hourReset s n = true ↔ 3600 ≤ (n - t) % 86400) ∧
      (3600 ≤ (n - t) % 86400 →
        (can_send s n sym).2.h = 0 ∧ (can_send s n sym).2.last_h = some n) ∧
      (¬3600 ≤ (n - t) % 86400 →
        (can_send s n sym).2.h = s.h ∧ (can_send s n sym).2.last_h = some t) := by
  have hiff : hourReset s n = true ↔ 3600 ≤ (n - t) % 86400 := by
    unfold hourReset
    rw [hlh]
    simp
  refine ⟨hiff, ?_, ?_⟩
  · intro hc
    have hr : hourReset s n = true := hiff.mpr hc
    have hA : (afterResets s n).h = 0 ∧ (afterResets s n).last_h = some n := by
      unfold afterResets
      rw [hr]
      simp only [if_true]
      split
      · exact ⟨rfl, rfl⟩
      · exact ⟨rfl, rfl⟩
    rw [can_send_snd]
    exact hA
  · intro hc
    have hr : hourReset s n = false := by
      cases hb : hourReset s n
      · rfl
      · exact absurd (hiff.mp hb) hc
    have hA : (afterResets s n).h = s.h ∧ (afterResets s n).last_h = some t := by
      unfold afterResets
      split
      · next hh => exact absurd (hr ▸ hh) (by simp)
      · cases hday : dayReset s n <;> simp only [hday] <;> exact ⟨rfl, hlh⟩
    rw [can_send_snd]
    exact hA

/-- State for the C2 witness: two alerts in the hour that started at
second 0. -/
def gateC2w : GateState := ⟨2, 5, some 0, some 0, [("ARB", 10)]⟩

/-- C2 witness, exercising both directions of the amended claim: at
3600 s elapsed (component 3600) the counter resets and the window is
restamped; at 90000 s elapsed (1 day + 1 hour, component 3600) it resets
as well; at 88200 s elapsed (1 day + 30 min, component 1800) the counter
and window start are untouched. -/
theorem C2_witness :
    ((can_send gateC2w 3600 "ARB").2.h = 0 ∧
      (can_send gateC2w 3600 "ARB").2.last_h = some 3600) ∧
      ((can_send gateC2w 90000 "ARB").2.h = 0 ∧
        (can_send gateC2w 90000 "ARB").2.last_h = some 90000) ∧
      ((can_send gateC2 88200 "ARB").2.h = gateC2.h ∧
        (can_send gateC2 88200 "ARB").2.last_h = some 0) :=
  ⟨(C2_hour_reset_iff_within_day gateC2w 0 3600 "ARB" rfl).2.1 (by decide),
    (C2_hour_reset_iff_within_day gateC2w 0 90000 "ARB" rfl).2.1 (by decide),
    (C2_hour_reset_iff_within_day gateC2 0 88200 "ARB" rfl).2.2 (by decide)⟩

/-! ## Claim C3: the 90-minute per-coin cool-down -/

/-- The pristine gate state (`STATE` at process start, with `None`
window stamps and an empty per-coin map). -/
def gateInit : GateState := ⟨0, 0, none, none, []⟩

/-- C3 counterexample: an asset that has *never* been alerted is denied at
time `n = 1800` (00:30:00 UTC on 1 Jan 1970, and likewise 00:30 UTC on any
later day) although neither global cap is reached: the missing per-coin
entry defaults to `datetime(1970, 1, 1)` and `timedelta.seconds` is the
within-day component, so `(n - epoch).seconds = 1800 < 5400`. -/
theorem C3_counterexample :
    gateInit.per_coin.lookup "ARB" = none ∧ gateInit.h = 0 ∧ gateInit.d = 0 ∧
      (can_send gateInit 1800 "ARB").1 = false := by
  exact ⟨rfl, rfl, rfl, by decide⟩

/-- C3 amended: in any state whose daily window does not roll over at the
query time and whose post-reset counts are below both caps:
an asset last alerted at `T` is denied at `T + 89` minutes and allowed at
`T + 90` minutes (as claimed); but an asset that was never alerted is
allowed iff the within-day component `n % 86400` of the current time is at
least 5400 seconds, i.e. iff the UTC time of day is at least 01:30:00 — not
"immediately at every current time". -/
theorem C3_cooldown_boundary (s : GateState) (td n : ℤ) (sym : String)
    (hld : s.last_d = some td) (hd0 : 0 ≤ n - td) (hd1 : n - td < 86400)
    (hcap : (can_send s n sym).2.h < 3 ∧ (can_send s n sym).2.d < 10) :
    (∀ T, s.per_coin.lookup sym = some T →
      ((n = T + 5340 → (can_send s n sym).1 = false) ∧
       (n = T + 5400 → (can_send s n sym).1 = true))) ∧
    (s.per_coin.lookup sym = none →
      ((can_send s n sym).1 = true ↔ 5400 ≤ n % 86400)) := by
  have hday : ∀ s1 : GateState, s1.last_d = s.last_d → dayReset s1 n = false := by
    intro s1 h1
    unfold dayReset
    rw [h1, hld]
    simp only [decide_eq_false_iff_not, not_le]
    rw [Int.fdiv_eq_ediv _ (by norm_num), Int.ediv_eq_zero_of_lt hd0 hd1]
    norm_num
  have hpc : (afterResets s n).per_coin = s.per_coin := by
    unfold afterResets
    simp only
    split
    · rw [hday { s with h := 0, last_h := some n } rfl]
      rfl
    · rw [hday s rfl]
      rfl
  rw [can_send_snd] at hcap
  have hres : ¬(3 ≤ (afterResets s n).h ∨ 10 ≤ (afterResets s n).d) := by omega
  have h1 : (can_send s n sym).1 =
      decide (5400 ≤ (n - ((s.per_coin.lookup sym).getD 0)) % 86400) := by
    simp only [can_send]
    rw [if_neg hres, hpc]
  constructor
  · intro T hT
    constructor
    · intro hn
      subst hn
      rw [h1, hT]
      simp only [Option.getD_some, add_sub_cancel_left]
      decide
    · intro hn
      subst hn
      rw [h1, hT]
      simp only [Option.getD_some, add_sub_cancel_left]
      decide
  · intro hnone
    rw [h1, hnone]
    simp only [Option.getD_none, sub_zero, decide_eq_true_eq]

/-- State for the C3 witness: "ARB" was alerted at second 0, the daily
window started at second 0, nothing counted yet. -/
def gateC3 : GateState := ⟨0, 0, some 0, some 0, [("ARB", 0)]⟩

/-- Gate state for the never-alerted part of the C3 witness. -/
def gateC3n : GateState := ⟨0, 0, some 0, some 0, []⟩

/-- C3 witness: with the asset alerted at `T = 0`, the gate denies at
`n = 5340` (89 min) and allows at `n = 5400` (90 min); a never-alerted
asset at `n = 7200` is allowed since `7200 % 86400 ≥ 5400`. -/
theorem C3_witness :
    (can_send gateC3 5340 "ARB").1 = false ∧
      (can_send gateC3 5400 "ARB").1 = true ∧
      (can_send gateC3n 7200 "SEI").1 = true := by
  have h89 := C3_cooldown_boundary gateC3 0 5340 "ARB" rfl (by decide) (by decide)
    ⟨by decide, by decide⟩
  have h90 := C3_cooldown_boundary gateC3 0 5400 "ARB" rfl (by decide) (by decide)
    ⟨by decide, by decide⟩
  have hn := C3_cooldown_boundary gateC3n 0 7200 "SEI" rfl (by decide) (by decide)
    ⟨by decide, by decide⟩
  exact ⟨(h89.1 0 rfl).1 rfl, (h90.1 0 rfl).2 rfl, (hn.2 rfl).mpr (by decide)⟩

/-! ## Claim C9: the volume filter against the prior-bar rolling average -/

/-- The volume filter as the spec words it ("latest volume > 1.2 × the
volume rolling-average as of the prior bar"), for comparison with the
source's `volumeOkB`, which substitutes `1` for a zero average. -/
def volumeOkSpec (df : Frame) : Bool :=
  match volAt? df (df.length - 1), vol_ma? df (df.length - 2) with
  | some v, some m => decide ((6 / 5) * m < v)
  | _, _ => false

/-- 200-bar frame whose first 199 bars have volume 0 and whose last bar has
volume 1, so the prior-bar volume average is exactly 0. -/
def zeroVolDf : Frame := List.replicate 199 (⟨1, 1, 1, 1, 0⟩ : Bar) ++ [⟨1, 1, 1, 1, 1⟩]

/-- C9 counterexample: on `zeroVolDf` the prior-bar average is `0`, the
claimed filter `v > 1.2 * 0` holds, but the source filter is false because
Python's `or` replaces the falsy average `0.0` by `1` and `1 > 1.2` fails. -/
theorem C9_counterexample :
    zeroVolDf.length = 200 ∧ vol_ma? zeroVolDf 198 = some 0 ∧
      volumeOkSpec zeroVolDf = true ∧ volumeOkB zeroVolDf = false :=
  ⟨by decide, by decide, by decide, by decide⟩

/-- C9 amended: for frames of at least 200 bars the prior-bar rolling
average is always defined, and the volume filter holds iff the latest
volume strictly exceeds `1.2` times that average — except that a *zero*
average is replaced by `1` (Python's `or 1` on the falsy `0.0`).  The
claim's "undefined average ⇒ filter not satisfied" clause is faithful to
the code (`none` falls through to `false`) but unreachable at ≥ 200 bars. -/
theorem C9_volume_filter (df : Frame) (hlen : 200 ≤ df.length) :
    (vol_ma? df (df.length - 2)).isSome = true ∧
      (∀ v m, volAt? df (df.length - 1) = some v →
        vol_ma? df (df.length - 2) = some m →
        (volumeOkB df = true ↔ (6 / 5) * (if m = 0 then 1 else m) < v)) := by
  constructor
  · unfold vol_ma?
    rw [if_pos (by omega)]
    rfl
  · intro v m hv hm
    unfold volumeOkB
    rw [hv, hm]
    simp

/-- 200-bar frame with constant volume 100 and a final volume of 200. -/
def volDf : Frame := List.replicate 199 (⟨1, 1, 1, 1, 100⟩ : Bar) ++ [⟨1, 1, 1, 1, 200⟩]

/-- C9 witness: on `volDf`, the prior-bar average is defined (100) and the
filter passes since `200 > 1.2 * 100`. -/
theorem C9_witness :
    (vol_ma? volDf (volDf.length - 2)).isSome = true ∧ volumeOkB volDf = true := by
  have h := C9_volume_filter volDf (by decide)
  exact ⟨h.1, (h.2 200 100 (by decide) (by decide)).mpr (by decide)⟩

/-! ## Claim C10: ordering and bounds of the Fibonacci levels -/

/-- One-bar frame whose high exceeds its low by `1e-12`, far below the
`1e-9` range floor of `fib_levels`. -/
def tinyDf : Frame := [⟨1, 1 + 1 / 1000000000000, 1, 1, 1⟩]

/-- The levels `fib_levels` computes on `tinyDf`. -/
def fbT : FibLevels := (fib_levels tinyDf).getD ⟨0, 0, 0⟩

/-- C10 counterexample: on `tinyDf` the high exceeds the low, yet the
`"0.5"` level lies strictly above the `"0.382"` level (ordering violated)
and also strictly above the maximum high (bounds violated): the `1e-9`
floor on the range makes the offsets overshoot the actual `1e-12` range. -/
theorem C10_counterexample :
    (fib_levels tinyDf).isSome = true ∧
      (1 : ℚ) < 1 + 1 / 1000000000000 ∧
      fbT.f382 < fbT.f5 ∧
      1 + 1 / 1000000000000 < fbT.f5 :=
  ⟨by decide, by decide, by decide, by decide⟩

/-- C10 amended: `fib_levels` is total on non-empty frames (it never
divides — the `1e-9` is a floor on the range via `max`, not a divisor);
and whenever the trailing-120-bar range `hi - lo` is at least the `1e-9`
floor, the three levels satisfy `"0.618" ≤ "0.5" ≤ "0.382"` and all lie
between the minimum low and the maximum high.  For ranges below `1e-9`
(including `hi = lo`) the padded range can break both properties. -/
theorem C10_fib_levels_ordered :
    (∀ df : Frame, df ≠ [] → (fib_levels df).isSome = true) ∧
      (∀ (df : Frame) (hi lo : ℚ),
        maxList ((df.drop (df.length - 120)).map Bar.h) = some hi →
        minList ((df.drop (df.length - 120)).map Bar.l) = some lo →
        1 / 1000000000 ≤ hi - lo →
        ∀ fb, fib_levels df = some fb →
          fb.f618 ≤ fb.f5 ∧ fb.f5 ≤ fb.f382 ∧ lo ≤ fb.f618 ∧ fb.f382 ≤ hi) := by
  constructor
  · intro df hne
    have hlen : 0 < df.length := List.length_pos.mpr hne
    have hd : df.drop (df.length - 120) ≠ [] := by
      intro h0
      have := congrArg List.length h0
      simp only [List.length_drop, List.length_nil] at this
      omega
    obtain ⟨b, rest, hbr⟩ := List.exists_cons_of_ne_nil hd
    unfold fib_levels
    simp only [hbr, List.map_cons, maxList, minList]
    rfl
  · intro df hi lo hhi hlo hrng fb hfb
    unfold fib_levels at hfb
    simp only [hhi, hlo] at hfb
    rw [max_eq_left (le_trans (by norm_num) hrng)] at hfb
    obtain rfl := (Option.some.inj hfb).symm
    refine ⟨?_, ?_, ?_, ?_⟩ <;> simp only <;> linarith

/-- One-bar frame with high 2 and low 1 for the C10 witness. -/
def twoPt : Frame := [⟨1, 2, 1, 1, 1⟩]

/-- The levels `fib_levels` computes on `twoPt`. -/
def fbW : FibLevels := (fib_levels twoPt).getD ⟨0, 0, 0⟩

/-- C10 witness: on `twoPt` (range 1 ≥ 1e-9) the levels are ordered and
inside `[1, 2]`. -/
theorem C10_witness :
    (fib_levels twoPt).isSome = true ∧ fbW.f618 ≤ fbW.f5 ∧ fbW.f5 ≤ fbW.f382 ∧
      (1 : ℚ) ≤ fbW.f618 ∧ fbW.f382 ≤ 2 := by
  have hs := C10_fib_levels_ordered.1 twoPt (by decide)
  have h := C10_fib_levels_ordered.2 twoPt 2 1 (by decide) (by decide) (by decide)
    fbW (by decide)
  exact ⟨hs, h.1, h.2.1, h.2.2.1, h.2.2.2⟩

/-! ## Claim C8: the pipeline on fewer than 2 bars -/

/-- A single-bar frame. -/
def oneBar : Frame := [⟨1, 1, 1, 1, 1⟩]

/-- C8 counterexample: on a 1-bar frame the `ema20` column of
`add_indicators` is *defined* at row 0 (pandas `ewm(span=20).mean()` uses
`min_periods=0`, so the EMA of a single observation is that observation),
refuting "every derived column is undefined at every row". -/
theorem C8_counterexample :
    oneBar.length < 2 ∧ (add_indicators oneBar).ema20 0 = some 1 ∧
      (add_indicators oneBar).ema20 0 ≠ none :=
  ⟨by decide, by decide, by decide⟩

/-- C8 amended: on frames with fewer than 2 bars the pipeline (modelled
total; it appends columns and does not fail) leaves the RSI, MACD (value,
signal, histogram), ATR, swing high/low and volume-average columns
undefined at every row, but the three EMA columns are defined wherever a
bar exists, equal there to that bar's close. -/
theorem C8_short_frames (df : Frame) (hlen : df.length < 2) :
    (∀ t, (add_indicators df).rsi t = none ∧ (add_indicators df).macd t = none ∧
      (add_indicators df).macd_signal t = none ∧
      (add_indicators df).macd_hist t = none ∧ (add_indicators df).atr t = none ∧
      (add_indicators df).swing_high t = none ∧
      (add_indicators df).swing_low t = none ∧
      (add_indicators df).vol_ma t = none) ∧
    (∀ t, t < df.length →
      (add_indicators df).ema20 t = some (cAt df t) ∧
        (add_indicators df).ema50 t = some (cAt df t) ∧
        (add_indicators df).ema200 t = some (cAt df t)) := by
  constructor
  · intro t
    refine ⟨?_, ?_, ?_, ?_, ?_, ?_, ?_, ?_⟩ <;>
      · simp only [add_indicators, rsi?, macd?, macd_signal?, macd_hist?, atr?,
          swing_high?, swing_low?, vol_ma?]
        rw [if_neg (by omega)]
  · intro t ht
    have ht0 : t = 0 := by omega
    subst ht0
    obtain ⟨b, rest, rfl⟩ :=
      List.exists_cons_of_ne_nil (show df ≠ [] by rintro rfl; simp at ht)
    refine ⟨?_, ?_, ?_⟩ <;>
      · simp only [add_indicators, ema20?, ema50?, ema200?, emaAdj, emaNum, emaDen]
        rw [if_pos ht]
        simp [foldQ, cAt, closeAt?]

/-- C8 witness: on the single-bar frame the oscillator, ATR and rolling
columns are undefined at row 0, while `ema20` equals the close there. -/
theorem C8_witness :
    (add_indicators oneBar).rsi 0 = none ∧ (add_indicators oneBar).atr 0 = none ∧
      (add_indicators oneBar).vol_ma 0 = none ∧
      (add_indicators oneBar).ema20 0 = some (cAt oneBar 0) := by
  have h := C8_short_frames oneBar (by decide)
  exact ⟨(h.1 0).1, (h.1 0).2.2.2.2.1, (h.1 0).2.2.2.2.2.2.2, (h.2 0 (by decide)).1⟩

/-! ## Claim C5: bullish and bearish filter conjunctions are mutually
exclusive -/

/-- The two trend filters read the same latest close and the same EMAs with
strict inequalities in opposite directions, so they cannot both hold. -/
theorem emaTrend_exclusive (df : Frame) :
    emaTrendBullB df = true → emaTrendBearB df = false := by
  unfold emaTrendBullB emaTrendBearB
  cases hc : closeAt? df (df.length - 1) with
  | none => simp
  | some c =>
    simp only [decide_eq_true_eq, decide_eq_false_iff_not]
    intro h hb
    linarith [h.1, h.2, hb.1, hb.2]

/-- C5: for every IndicatorFrame, the full bullish filter conjunction and
the full bearish filter conjunction are never simultaneously satisfied on
the same latest bar (the opposite strict trend filters exclude each
other). -/
theorem C5_mutual_exclusion (df : Frame) : (bullB df && bearB df) = false := by
  by_cases hb : bullB df = true
  · have ht : emaTrendBullB df = true := by
      simp only [bullB, Bool.and_eq_true] at hb
      exact hb.1.1.1.1.2
    have hf : emaTrendBearB df = false := emaTrend_exclusive df ht
    simp [bearB, hf]
  · rw [Bool.not_eq_true] at hb
    simp [hb]

/-! ## Claim C6: geometry of the emitted stops and targets -/

/-- Peeling a well-formed frame at an in-range row. -/
theorem wf_bounds (df : Frame) (hwf : WFb df = true) (t : ℕ) (ht : t < df.length) :
    lAt df t ≤ cAt df t ∧ cAt df t ≤ hAt df t := by
  have hget := List.get?_eq_get ht
  have hmem : df.get ⟨t, ht⟩ ∈ df := List.get_mem df t ht
  have hb := List.all_eq_true.mp hwf _ hmem
  rw [decide_eq_true_eq] at hb
  unfold lAt cAt hAt lowAt? closeAt? highAt?
  rw [hget]
  simpa using hb

/-- A max-fold only grows its seed. -/
theorem le_foldl_max (l : List ℕ) (g : ℕ → ℚ) (s : ℚ) :
    s ≤ l.foldl (fun a k => max a (g k)) s := by
  induction l generalizing s with
  | nil => exact le_refl s
  | cons k rest ih => exact le_trans (le_max_left s (g k)) (ih (max s (g k)))

/-- A min-fold only shrinks its seed. -/
theorem foldl_min_le (l : List ℕ) (g : ℕ → ℚ) (s : ℚ) :
    l.foldl (fun a k => min a (g k)) s ≤ s := by
  induction l generalizing s with
  | nil => exact le_refl s
  | cons k rest ih => exact le_trans (ih (min s (g k))) (min_le_left s (g k))

/-- The rolling swing high dominates its own row's high. -/
theorem hAt_le_hmax (df : Frame) (t : ℕ) : hAt df t ≤ hmax df t :=
  le_foldl_max _ _ _

/-- The rolling swing low is dominated by its own row's low. -/
theorem lmin_le_lAt (df : Frame) (t : ℕ) : lmin df t ≤ lAt df t :=
  foldl_min_le _ _ _

/-- On well-formed data every True Range is nonnegative. -/
theorem trZ_nonneg (df : Frame) (hwf : WFb df = true) : ∀ t, 0 ≤ trZ df t
  | 0 => by
    unfold trZ
    cases hb : df.get? 0 with
    | none =>
      unfold hAt lAt highAt? lowAt?
      rw [hb]
      simp
    | some b =>
      have hmem := List.get?_mem hb
      have hball := List.all_eq_true.mp hwf _ hmem
      rw [decide_eq_true_eq] at hball
      unfold hAt lAt highAt? lowAt?
      rw [hb]
      simp only [Option.map_some', Option.getD_some]
      linarith [hball.1, hball.2]
  | t + 1 => by
    unfold trZ
    exact le_trans (abs_nonneg (hAt df (t + 1) - cAt df t))
      (le_trans (le_max_left _ _) (le_max_right _ _))

/-- Nonnegativity is preserved by the plain sum fold. -/
theorem foldl_add_nonneg (l : List ℚ) (s : ℚ) (hs : 0 ≤ s)
    (hl : ∀ y ∈ l, 0 ≤ y) : 0 ≤ l.foldl (fun a y => a + y) s := by
  induction l generalizing s with
  | nil => exact hs
  | cons y rest ih =>
    refine ih _ ?_ fun z hz => hl z (List.mem_cons_of_mem _ hz)
    have := hl y (List.mem_cons_self _ _)
    show (0 : ℚ) ≤ s + y
    linarith

/-- Nonnegativity is preserved by the Wilder ATR fold. -/
theorem foldl_atr_nonneg (l : List ℚ) (s : ℚ) (hs : 0 ≤ s)
    (hl : ∀ y ∈ l, 0 ≤ y) :
    0 ≤ l.foldl (fun a y => (13 * a + y) / 14) s := by
  induction l generalizing s with
  | nil => exact hs
  | cons y rest ih =>
    refine ih _ ?_ fun z hz => hl z (List.mem_cons_of_mem _ hz)
    have := hl y (List.mem_cons_self _ _)
    show (0 : ℚ) ≤ (13 * s + y) / 14
    exact div_nonneg (by linarith) (by norm_num)

/-- On well-formed data the ATR is strictly positive at any row `t ≥ 14`
whose own True Range is strictly positive. -/
theorem atrR_pos (df : Frame) (hwf : WFb df = true) (t : ℕ) (ht : 14 ≤ t)
    (htr : 0 < trZ df t) : 0 < atrR df t := by
  unfold atrR
  rw [foldQ_eq_foldl, foldQ_eq_foldl]
  have htrm : ∀ y ∈ (List.range 14).map (trZ df), 0 ≤ y := by
    intro y hy
    obtain ⟨i, _, rfl⟩ := List.mem_map.mp hy
    exact trZ_nonneg df hwf i
  have hseed : 0 ≤ List.foldl (fun s y => s + y) 0 ((List.range 14).map (trZ df)) / 14 :=
    div_nonneg (foldl_add_nonneg _ _ le_rfl htrm) (by norm_num)
  have hsplit : List.range' 14 (t - 13) = List.range' 14 (t - 14) ++ [t] := by
    have h1 : t - 13 = (t - 14) + 1 := by omega
    rw [h1, List.range'_concat]
    have h2 : 14 + 1 * (t - 14) = t := by omega
    rw [h2]
  rw [hsplit, List.map_append, List.foldl_append]
  simp only [List.map_cons, List.map_nil, List.foldl_cons, List.foldl_nil]
  have hpre : ∀ y ∈ (List.range' 14 (t - 14)).map (trZ df), 0 ≤ y := by
    intro y hy
    obtain ⟨i, _, rfl⟩ := List.mem_map.mp hy
    exact trZ_nonneg df hwf i
  have hX := foldl_atr_nonneg ((List.range' 14 (t - 14)).map (trZ df)) _ hseed hpre
  exact div_pos (by linarith) (by norm_num)

/-- C6 amended: on every *well-formed* frame (each bar has
`low ≤ close ≤ high`), whenever `breakout_retest_signal` emits a bullish
descriptor the stop lies strictly below the entry, both targets strictly
above it and `tp1 < tp2`; mirrored for the bearish descriptor of
`exit_signal`.  (On malformed bars the ATR can collapse to zero and the
stop coincide with the entry — see the counterexample.) -/
theorem C6_risk_geometry (df : Frame) (sym : String) (snap : Snapshot)
    (hwf : WFb df = true) :
    (∀ d, breakout_retest_signal sym (some df) snap = some d →
      d.stop < d.entry ∧ d.entry < d.tp1 ∧ d.entry < d.tp2 ∧ d.tp1 < d.tp2) ∧
    (∀ e, exit_signal sym (some df) = some e →
      e.entry < e.stop ∧ e.tp1 < e.entry ∧ e.tp2 < e.entry ∧ e.tp2 < e.tp1) := by
  constructor
  · intro d hd
    simp only [breakout_retest_signal] at hd
    split at hd
    · exact absurd hd (by simp)
    · next hlen =>
      have hlen' : 200 ≤ df.length := by omega
      split at hd
      · next hcond =>
        split at hd
        · next c a hc ha =>
          obtain rfl := Option.some.inj hd
          have hbull : bullB df = true := by
            simp only [Bool.and_eq_true] at hcond
            exact hcond.1
          have hbroke : brokeHighB df = true := by
            simp only [bullB, Bool.and_eq_true] at hbull
            exact hbull.1.2
          unfold brokeHighB at hbroke
          split at hbroke
          · next c1 c2 s2 s3 hc1 hc2 hs2x hs3x =>
            rw [decide_eq_true_eq] at hbroke
            obtain ⟨hs2c1, -⟩ := hbroke
            have hcc : c1 = c := by
              rw [hc] at hc1
              exact (Option.some.inj hc1).symm
            subst hcc
            unfold swing_high? at hs2x
            split at hs2x
            · next hbnd =>
              have hs2eq : hmax df (df.length - 2) = s2 := Option.some.inj hs2x
              unfold atr? at ha
              split at ha
              · next habnd =>
                have haa : atrR df (df.length - 1) = a := Option.some.inj ha
                have hc1' : cAt df (df.length - 1) = c1 := by
                  unfold cAt
                  rw [hc]
                  rfl
                have hc2' : cAt df (df.length - 2) = c2 := by
                  unfold cAt
                  rw [hc2]
                  rfl
                have hw1 := wf_bounds df hwf (df.length - 1) (by omega)
                have hw2 := wf_bounds df hwf (df.length - 2) (by omega)
                have hm : df.length - 1 = (df.length - 2) + 1 := by omega
                have hkey : 0 < hAt df ((df.length - 2) + 1) - cAt df (df.length - 2) := by
                  rw [← hm]
                  have h2 : hAt df (df.length - 2) ≤ hmax df (df.length - 2) :=
                    hAt_le_hmax df _
                  linarith [hw1.2, hw2.2]
                have htr : 0 < trZ df (df.length - 1) := by
                  rw [hm]
                  refine lt_of_lt_of_le hkey ?_
                  refine le_trans (le_abs_self _) ?_
                  exact le_trans (le_max_left _ _) (le_max_right _ _)
                have hatr : 0 < a := by
                  have := atrR_pos df hwf (df.length - 1) (by omega) htr
                  rwa [haa] at this
                have hrr := le_max_right (c1 - (c1 - 3 / 2 * a)) ((1 : ℚ) / 1000000)
                refine ⟨?_, ?_, ?_, ?_⟩ <;>
                  · simp only [mkLong]
                    linarith
              · exact absurd ha (by simp)
            · exact absurd hs2x (by simp)
          · exact absurd hbroke (by simp)
        · exact absurd hd (by simp)
      · exact absurd hd (by simp)
  · intro e he
    simp only [exit_signal] at he
    split at he
    · exact absurd he (by simp)
    · next hlen =>
      have hlen' : 200 ≤ df.length := by omega
      split at he
      · next hcond =>
        split at he
        · next c a hc ha =>
          obtain rfl := Option.some.inj he
          have hbroke : brokeLowB df = true := by
            simp only [bearB, Bool.and_eq_true] at hcond
            exact hcond.1.2
          unfold brokeLowB at hbroke
          split at hbroke
          · next c1 c2 s2 s3 hc1 hc2 hs2x hs3x =>
            rw [decide_eq_true_eq] at hbroke
            obtain ⟨hc1s2, -⟩ := hbroke
            have hcc : c1 = c := by
              rw [hc] at hc1
              exact (Option.some.inj hc1).symm
            subst hcc
            unfold swing_low? at hs2x
            split at hs2x
            · next hbnd =>
              have hs2eq : lmin df (df.length - 2) = s2 := Option.some.inj hs2x
              unfold atr? at ha
              split at ha
              · next habnd =>
                have haa : atrR df (df.length - 1) = a := Option.some.inj ha
                have hc1' : cAt df (df.length - 1) = c1 := by
                  unfold cAt
                  rw [hc]
                  rfl
                have hc2' : cAt df (df.length - 2) = c2 := by
                  unfold cAt
                  rw [hc2]
                  rfl
                have hw1 := wf_bounds df hwf (df.length - 1) (by omega)
                have hw2 := wf_bounds df hwf (df.length - 2) (by omega)
                have hm : df.length - 1 = (df.length - 2) + 1 := by omega
                have hkey : 0 < cAt df (df.length - 2) - lAt df ((df.length - 2) + 1) := by
                  rw [← hm]
                  have h2 : lmin df (df.length - 2) ≤ lAt df (df.length - 2) :=
                    lmin_le_lAt df _
                  linarith [hw1.1, hw2.1]
                have htr : 0 < trZ df (df.length - 1) := by
                  rw [hm]
                  refine lt_of_lt_of_le hkey ?_
                  refine le_trans ?_ (le_trans (le_max_right _ _) (le_max_right _ _))
                  rw [abs_sub_comm]
                  exact le_abs_self _
                have hatr : 0 < a := by
                  have := atrR_pos df hwf (df.length - 1) (by omega) htr
                  rwa [haa] at this
                have hrr := le_max_right (c1 + 3 / 2 * a - c1) ((1 : ℚ) / 1000000)
                refine ⟨?_, ?_, ?_, ?_⟩ <;>
                  · simp only [mkShort]
                    linarith
              · exact absurd ha (by simp)
            · exact absurd hs2x (by simp)
          · exact absurd hbroke (by simp)
        · exact absurd he (by simp)
      · exact absurd he (by simp)

/-- A malformed 200-bar frame: 199 bars stuck at price 100 with
`high = low = close`, then a final bar whose close 150 *exceeds its own
high* 100.  Every True Range is 0, so the ATR at the last bar is 0. -/
def badDf : Frame :=
  List.replicate 199 (⟨100, 100, 100, 100, 100⟩ : Bar) ++ [⟨100, 100, 100, 150, 200⟩]

/-- The descriptor the matcher emits on `badDf`: stop equal to the entry. -/
def badSig : TradeSignal := ⟨150, 150, 150 + 1 / 500000, 150 + 3 / 1000000⟩

/-- C6 counterexample: on `badDf` the bullish matcher emits a descriptor
whose stop *equals* the entry price (ATR 0, so `stop = close - 1.5*0`),
refuting "the computed stop is strictly below the entry price" over all
inputs. -/
theorem C6_counterexample :
    breakout_retest_signal "XYZ" (some badDf) emptySnap = some badSig ∧
      badSig.stop = badSig.entry ∧ ¬badSig.stop < badSig.entry :=
  ⟨by decide, by decide, by decide⟩

/-- A well-formed 200-bar frame: 199 bars at close 100 (high 101, low 99),
then a breakout bar closing at 150 after retesting the prior swing high
101.  All six bullish filters pass. -/
def goodDf : Frame :=
  List.replicate 199 (⟨100, 101, 99, 100, 100⟩ : Bar) ++ [⟨100, 155, 101, 150, 200⟩]

/-- The descriptor emitted on `goodDf` (`atr = 81/14`). -/
def goodSig : TradeSignal := ⟨150, 3957 / 28, 2343 / 14, 4929 / 28⟩

/-- A well-formed 200-bar frame whose last bar breaks down to close 50
after retesting the prior swing low 99.  All six bearish filters pass. -/
def bearDf : Frame :=
  List.replicate 199 (⟨100, 101, 99, 100, 100⟩ : Bar) ++ [⟨100, 99, 45, 50, 200⟩]

/-- The descriptor emitted on `bearDf` (`atr = 81/14`). -/
def bearSig : TradeSignal := ⟨50, 1643 / 28, 457 / 14, 671 / 28⟩

/-- C6 witness: the amended theorem applied to the two well-formed frames
on which the matchers actually fire. -/
theorem C6_witness :
    WFb goodDf = true ∧ WFb bearDf = true ∧
      breakout_retest_signal "XYZ" (some goodDf) emptySnap = some goodSig ∧
      goodSig.stop < goodSig.entry ∧ goodSig.entry < goodSig.tp1 ∧
      goodSig.entry < goodSig.tp2 ∧ goodSig.tp1 < goodSig.tp2 ∧
      exit_signal "XYZ" (some bearDf) = some bearSig ∧
      bearSig.entry < bearSig.stop ∧ bearSig.tp1 < bearSig.entry ∧
      bearSig.tp2 < bearSig.entry ∧ bearSig.tp2 < bearSig.tp1 := by
  have hwf1 : WFb goodDf = true := by decide
  have hwf2 : WFb bearDf = true := by decide
  have hg : breakout_retest_signal "XYZ" (some goodDf) emptySnap = some goodSig := by
    decide
  have hb : exit_signal "XYZ" (some bearDf) = some bearSig := by decide
  have h1 := (C6_risk_geometry goodDf "XYZ" emptySnap hwf1).1 goodSig hg
  have h2 := (C6_risk_geometry bearDf "XYZ" emptySnap hwf2).2 bearSig hb
  exact ⟨hwf1, hwf2, hg, h1.1, h1.2.1, h1.2.2.1, h1.2.2.2, hb,
    h2.1, h2.2.1, h2.2.2.1, h2.2.2.2⟩

end TradingBot
